import Mathlib

/-!
Verification of the asynchronous job orchestration subsystem of
`src/server.py` (Parallel AI MCP server): the task registry, the
`deep_research` submission path, the `poll_parallel_task` background worker,
the chunking algorithm it applies to oversized results, and the
`task_status` / `get_research_chunk` read paths.

The Python code is shallowly embedded: text payloads are `List Char`
(Python `str` slicing is list `take`/`drop`), the remote API calls are
passed in as `Except`-valued outcomes (success value or the text of the
raised exception), timestamps are abstract `Nat`s, and the per-job status
writes and record snapshots performed by the code are returned explicitly
so that trace properties can be stated.
-/

/-- Embeds `TaskStatus` (server.py lines 42-49). -/
inductive TaskStatus where
  | pending
  | approved
  | running
  | complete
  | failed
  | cancelled
deriving DecidableEq

/-- One citation entry produced by the basis-parsing loop
(server.py lines 282-292): url, excerpts, title, each optional exactly as
the `hasattr` probing leaves them. -/
structure Citation where
  url : Option String
  excerpts : List String
  title : Option String
deriving DecidableEq

/-- One citation group (server.py lines 266-294): field, citations,
confidence, reasoning. -/
structure CitationGroup where
  field : Option String
  citations : List Citation
  confidence : Option String
  reasoning : Option String
deriving DecidableEq

/-- Embeds the result dictionary built by `poll_parallel_task`
(server.py lines 323-332). -/
structure ResearchResult where
  content : List Char
  chunks : List (List Char)
  total_chunks : Nat
  estimated_tokens : Nat
  citations : List CitationGroup
  processor : String
  run_id : Option String
deriving DecidableEq

/-- Embeds the `TaskState` dataclass (server.py lines 52-86); timestamps
are abstract naturals. -/
structure TaskState where
  task_id : String
  query : String
  processor : String
  status : TaskStatus
  result : Option ResearchResult
  error : Option String
  created_at : Nat
  started_at : Option Nat
  run_id : Option String
deriving DecidableEq

/-- Embeds `chunk_size = 15000 * 4` (server.py line 309). -/
def chunk_size : Nat := 15000 * 4

/-- Embeds the splitting loop `for i in range(0, len(content), chunk_size):
chunks.append(content[i:i+chunk_size])` (server.py lines 313-314): on an
empty list the range is empty; otherwise one slice of at most `chunk_size`
characters is taken and the loop continues on the rest. -/
def splitChunksAux (l : List Char) : List (List Char) :=
  if h : l = [] then []
  else l.take chunk_size :: splitChunksAux (l.drop chunk_size)
termination_by l.length
decreasing_by
  simp only [List.length_drop]
  have hl : 0 < l.length := List.length_pos.mpr h
  simp only [chunk_size]
  omega

/-- Embeds the chunking algorithm of `poll_parallel_task`
(server.py lines 305-321): `estimated_tokens = len(content) / 4` (exact
float division), and the split runs only when `estimated_tokens > 15000`,
i.e. exactly when `len(content) > 60000`; otherwise `chunks = [content]`. -/
def chunkContent (content : List Char) : List (List Char) :=
  if chunk_size < content.length then splitChunksAux content
  else [content]

/-- Embeds `estimated_tokens = int(len(content) / 4)` as stored in the result
dictionary (server.py lines 306, 328): truncation of an exact nonnegative
float quotient is natural-number division. -/
def estimatedTokens (content : List Char) : Nat :=
  content.length / 4

/-- Concatenating the slices of the splitting loop gives back the input. -/
theorem splitChunksAux_flatten (l : List Char) : (splitChunksAux l).flatten = l := by
  rw [splitChunksAux]
  split
  · rename_i h
    simp [h]
  · have ih := splitChunksAux_flatten (l.drop chunk_size)
    simp [ih, List.take_append_drop]
termination_by l.length
decreasing_by
  simp only [List.length_drop]
  have hl : 0 < l.length := List.length_pos.mpr (by assumption)
  simp only [chunk_size]
  omega

/-- The splitting loop on a nonempty list yields at least one slice. -/
theorem splitChunksAux_length_pos (l : List Char) (h : l ≠ []) :
    0 < (splitChunksAux l).length := by
  rw [splitChunksAux]
  simp [h]

/-- The splitting loop on a list longer than `chunk_size` yields at least
two slices. -/
theorem splitChunksAux_two_le (l : List Char) (h : chunk_size < l.length) :
    2 ≤ (splitChunksAux l).length := by
  rw [splitChunksAux]
  have hne : l ≠ [] := by
    intro he
    simp [he] at h
  simp only [hne, dite_false]
  have hrest : l.drop chunk_size ≠ [] := by
    intro he
    have := congrArg List.length he
    simp only [List.length_drop, List.length_nil] at this
    omega
  have := splitChunksAux_length_pos (l.drop chunk_size) hrest
  simp only [List.length_cons]
  omega

/-- Every slice produced by the splitting loop has at most `chunk_size`
characters. -/
theorem splitChunksAux_chunk_le (l : List Char) :
    ∀ c ∈ splitChunksAux l, c.length ≤ chunk_size := by
  intro c hc
  rw [splitChunksAux] at hc
  split at hc
  · simp at hc
  · rcases List.mem_cons.mp hc with h0 | h1
    · subst h0
      simpa using List.length_take_le chunk_size l
    · exact splitChunksAux_chunk_le (l.drop chunk_size) c h1
termination_by l.length
decreasing_by
  simp only [List.length_drop]
  have hl : 0 < l.length := List.length_pos.mpr (by assumption)
  simp only [chunk_size]
  omega

/-- The `i`-th slice of the splitting loop is exactly the contiguous window
of the input starting at offset `i * chunk_size`. -/
theorem splitChunksAux_getElem? (l : List Char) (i : Nat)
    (hi : i < (splitChunksAux l).length) :
    (splitChunksAux l)[i]? = some ((l.drop (i * chunk_size)).take chunk_size) := by
  rw [splitChunksAux] at hi ⊢
  by_cases hne : l = []
  · rw [dif_pos hne] at hi
    simp at hi
  · rw [dif_neg hne] at hi ⊢
    match i with
    | 0 =>
      simp
    | j + 1 =>
      simp only [List.length_cons] at hi
      have ih := splitChunksAux_getElem? (l.drop chunk_size) j (by omega)
      simp only [List.getElem?_cons_succ]
      rw [ih, List.drop_drop]
      have harith : chunk_size + j * chunk_size = (j + 1) * chunk_size := by
        ring
      rw [harith]
termination_by l.length
decreasing_by
  simp only [List.length_drop]
  have hl : 0 < l.length := List.length_pos.mpr (by assumption)
  simp only [chunk_size]
  omega

/-- The float comparison `len(content) / 4 <= 15000` performed over exact
rationals coincides with `len(content) <= 60000`. -/
theorem est_div_le_iff (n : Nat) : ((n : ℚ) / 4 ≤ 15000) ↔ n ≤ 60000 := by
  rw [div_le_iff₀ (by norm_num)]
  norm_cast

/-- The float comparison `len(content) / 4 > 15000` performed over exact
rationals coincides with `len(content) > 60000`. -/
theorem est_div_gt_iff (n : Nat) : (15000 < (n : ℚ) / 4) ↔ 60000 < n := by
  rw [lt_div_iff₀ (by norm_num)]
  norm_cast

/-- Concatenating the chunks of the chunking algorithm reproduces the
input. -/
theorem chunkContent_flatten (l : List Char) : (chunkContent l).flatten = l := by
  rw [chunkContent]
  split
  · exact splitChunksAux_flatten l
  · simp

/-- The chunking algorithm always yields at least one chunk. -/
theorem chunkContent_length_pos (l : List Char) : 0 < (chunkContent l).length := by
  rw [chunkContent]
  split
  · apply splitChunksAux_length_pos
    intro he
    rename_i hlen
    simp [he] at hlen
  · simp

/-- The chunking algorithm yields exactly one chunk precisely when the
input has at most `chunk_size` characters. -/
theorem chunkContent_single_iff (l : List Char) :
    (chunkContent l).length = 1 ↔ l.length ≤ chunk_size := by
  rw [chunkContent]
  split
  · rename_i hlen
    have := splitChunksAux_two_le l hlen
    constructor
    · intro h1
      omega
    · intro hle
      omega
  · rename_i hlen
    push_neg at hlen
    simp [hlen]

/-- C1: Chunking round-trip — for every input text, concatenating the
chunks computed by the chunking algorithm of `poll_parallel_task`
(server.py lines 305-321) in order reproduces the input exactly, and the
algorithm returns exactly one chunk iff `len(text) / 4 <= 15000` (the
Python float comparison, taken here over exact rationals). -/
theorem c1_chunk_roundtrip (l : List Char) :
    (chunkContent l).flatten = l ∧
    ((chunkContent l).length = 1 ↔ (l.length : ℚ) / 4 ≤ 15000) := by
  refine ⟨chunkContent_flatten l, ?_⟩
  rw [chunkContent_single_iff, est_div_le_iff]
  simp [chunk_size]

/-- The conclusion of claim C2, as a predicate on the input text: the
chunk list has at least two elements, every chunk has at most
`chunk_size = 60000` characters, and the `i`-th chunk is exactly the
window of the input from offset `i * chunk_size` of length at most
`chunk_size` — so the chunks are contiguous, in input order, with no
overlap. -/
def chunkShape (l : List Char) : Prop :=
  2 ≤ (chunkContent l).length ∧
  (∀ c ∈ chunkContent l, c.length ≤ chunk_size) ∧
  (∀ i < (chunkContent l).length,
    (chunkContent l)[i]? = some ((l.drop (i * chunk_size)).take chunk_size))

/-- C2: Chunk shape — for every input text whose estimated size
`len(text) / 4` exceeds 15000, the chunking algorithm yields at least two
chunks, each a contiguous substring of at most `15000 * 4 = 60000`
characters, appearing in input order with no overlap (the `i`-th chunk is
the window at offset `i * 60000`). -/
theorem c2_chunk_shape (l : List Char) (h : 15000 < (l.length : ℚ) / 4) :
    chunkShape l := by
  have hlen : chunk_size < l.length := by
    have := (est_div_gt_iff l.length).mp h
    simp [chunk_size]
    omega
  have hsplit : chunkContent l = splitChunksAux l := by
    rw [chunkContent, if_pos hlen]
  refine ⟨?_, ?_, ?_⟩
  · rw [hsplit]
    exact splitChunksAux_two_le l hlen
  · rw [hsplit]
    exact splitChunksAux_chunk_le l
  · intro i hi
    rw [hsplit] at hi ⊢
    exact splitChunksAux_getElem? l i hi

/-- Witness for C2 at the concrete input of 60001 copies of the letter a. -/
theorem c2_chunk_shape_witness :
    15000 < (((List.replicate 60001 'a').length : ℚ) / 4) ∧
    chunkShape (List.replicate 60001 'a') := by
  have h : 15000 < (((List.replicate 60001 'a').length : ℚ) / 4) := by
    rw [List.length_replicate]
    norm_num
  exact ⟨h, c2_chunk_shape (List.replicate 60001 'a') h⟩

/-- The `valid_processors` list of `deep_research` (server.py lines
518-521). -/
def valid_processors : List String :=
  ["lite", "base", "core", "core2x", "pro",
   "ultra", "ultra2x", "ultra4x", "ultra8x"]

/-- Embeds the processor validation of `deep_research` (server.py lines
522-528): an invalid tier is replaced by the literal fallback `"pro"`,
with only a warning logged. -/
def validateProcessor (processor : String) : String :=
  if processor ∈ valid_processors then processor else "pro"

/-- Embeds the resolution of the processor argument: `call_tool` passes
`arguments.get("processor", os.getenv("DEFAULT_PROCESSOR", "pro"))`
(server.py lines 378-381) and `deep_research` replaces a missing value by
the same environment default (lines 503-504), then validates. `envDefault`
is the value of the `DEFAULT_PROCESSOR` environment variable, `arg` the
caller-supplied tier. -/
def resolveProcessor (envDefault arg : Option String) : String :=
  validateProcessor (arg.getD (envDefault.getD ("pro")))

/-- The value `deep_research` returns to its caller (server.py lines
537-540, 606-609, 620). -/
inductive SubmitResponse where
  | clientError
  | submitted (task_id : String) (processor : String)
  | errorText (e : String)
deriving DecidableEq

/-- Everything observable about one execution of `deep_research`
(server.py lines 487-620): the job record left in `task_queue` (if one was
created), whether `asyncio.create_task(poll_parallel_task ...)` was
reached, whether any approval collaborator was invoked, the value returned
to the caller, the sequence of writes to the record's `status` field, and
the record snapshots at the points where another coroutine could observe
the record. `approvalRequested` records that the source builds an
`approval_message` string (lines 570-577) but never calls any approval
capability with it — the NOTE at lines 579-581 leaves approval
unimplemented — so every path below sets it to `false`. -/
structure SubmitOutcome where
  taskRecord : Option TaskState
  workerSpawned : Bool
  approvalRequested : Bool
  response : SubmitResponse
  statusWrites : List TaskStatus
  snapshots : List TaskState
deriving DecidableEq

/-- Embeds `deep_research` (server.py lines 487-620). `clientConfigured`
stands for `parallel_client is not None`; `createRun` is the outcome of
`parallel_client.task_run.create(...)` (run id, or the text of the raised
exception); `createdAt` abstracts `datetime.now()` at record creation. -/
def deep_research (clientConfigured : Bool) (query : String)
    (arg envDefault : Option String) (task_id : String) (createdAt : Nat)
    (createRun : Except String String) : SubmitOutcome :=
  let processor := resolveProcessor envDefault arg
  if clientConfigured then
    let t0 : TaskState :=
      { task_id := task_id, query := query, processor := processor,
        status := .pending, result := none, error := none,
        created_at := createdAt, started_at := none, run_id := none }
    match createRun with
    | .ok rid =>
      let t1 : TaskState := { t0 with run_id := some rid, status := .approved }
      { taskRecord := some t1, workerSpawned := true,
        approvalRequested := false,
        response := .submitted task_id processor,
        statusWrites := [.pending, .approved],
        snapshots := [t0, t1] }
    | .error e =>
      let t1 : TaskState := { t0 with status := .failed, error := some e }
      { taskRecord := some t1, workerSpawned := false,
        approvalRequested := false,
        response := .errorText e,
        statusWrites := [.pending, .failed],
        snapshots := [t0, t1] }
  else
    { taskRecord := none, workerSpawned := false,
      approvalRequested := false,
      response := .clientError,
      statusWrites := [],
      snapshots := [] }

/-- The data the worker extracts from a successful remote run
(server.py lines 261-303): the free-text content and the parsed citation
groups. The `hasattr`-probing parser is abstracted to its output. -/
structure WorkerData where
  content : List Char
  citations : List CitationGroup
deriving DecidableEq

/-- Embeds the result dictionary construction of `poll_parallel_task`
(server.py lines 305-332). -/
def mkResult (d : WorkerData) (processor : String) (run_id : Option String) :
    ResearchResult :=
  { content := d.content,
    chunks := chunkContent d.content,
    total_chunks := (chunkContent d.content).length,
    estimated_tokens := estimatedTokens d.content,
    citations := d.citations,
    processor := processor,
    run_id := run_id }

/-- Everything observable about one execution of `poll_parallel_task`:
the final record, the writes to `status`, and the record snapshots at the
suspension points of the coroutine (after the `status = RUNNING` write,
and after the terminal write block — `result` + `status = COMPLETE`
(lines 323-333) and `status = FAILED` + `error` (lines 349-350) each have
no `await` between their statements, so they are atomic to other
coroutines). -/
structure WorkerOutcome where
  final : TaskState
  statusWrites : List TaskStatus
  snapshots : List TaskState
deriving DecidableEq

/-- Embeds `poll_parallel_task` (server.py lines 220-352). `work` is the
combined outcome of the polling loop plus result retrieval and parsing
(lines 237-303): the extracted data, or the text of the first raised
exception. Logging calls are pure and cannot raise, so the `except` block
(lines 344-350) is reachable only while the record still reads RUNNING. -/
def poll_parallel_task (task_state : TaskState) (startedAt : Nat)
    (work : Except String WorkerData) : WorkerOutcome :=
  let running : TaskState :=
    { task_state with status := .running, started_at := some startedAt }
  match work with
  | .ok d =>
    let r := mkResult d task_state.processor task_state.run_id
    let fin : TaskState := { running with result := some r, status := .complete }
    { final := fin,
      statusWrites := [.running, .complete],
      snapshots := [running, fin] }
  | .error e =>
    let fin : TaskState := { running with status := .failed, error := some e }
    { final := fin,
      statusWrites := [.running, .failed],
      snapshots := [running, fin] }

/-- Embeds the dictionary lookups `task_id not in task_queue` /
`task_queue[task_id]` (server.py lines 641-644, 695-698) over an
association-list view of `task_queue`. -/
def findTask (queue : List (String × TaskState)) (task_id : String) :
    Option TaskState :=
  match queue with
  | [] => none
  | (k, v) :: rest => if k = task_id then some v else findTask rest task_id

/-- The value `get_research_chunk` produces (server.py lines 623-676).
`indexError` marks the raise a Python list access out of bounds would
cause at line 671; `attrError` marks the raise `result.get` on `None`
would cause at line 653. Neither is reachable for records the server
itself creates. -/
inductive ChunkFetch where
  | notFound (task_id : String)
  | notReady (task_id : String) (status : TaskStatus)
  | outOfRange (chunk : Int) (total_chunks : Nat)
  | chunkText (text : List Char) (chunkNumber : Int) (total_chunks : Nat)
  | indexError
  | attrError
deriving DecidableEq

/-- Embeds `get_research_chunk` (server.py lines 623-676): registry
lookup, the completeness gate, the 1-indexed range check
`chunk < 1 or chunk > total_chunks`, and the access
`chunks[chunk - 1]`. -/
def get_research_chunk (queue : List (String × TaskState)) (task_id : String)
    (chunk : Int) : ChunkFetch :=
  match findTask queue task_id with
  | none => .notFound task_id
  | some task =>
    if task.status ≠ .complete then .notReady task_id task.status
    else
      match task.result with
      | none => .attrError
      | some r =>
        if chunk < 1 ∨ (r.total_chunks : Int) < chunk then
          .outOfRange chunk r.total_chunks
        else
          match r.chunks[(chunk - 1).toNat]? with
          | none => .indexError
          | some c => .chunkText c chunk r.total_chunks

/-- The value `task_status` produces (server.py lines 679-820), keeping
the data each branch reads from the record: the chunked-complete branch
reads `result['chunks'][0]` (line 747), the small-complete branch reads
`result['content']` (line 773), the failed branch reads `task.error`
(line 794), and the in-progress branch reads `task.status` and whether
`started_at` is set (lines 797-820). `attrError` marks the raise
`result.get` on `None` would cause at line 714. -/
inductive StatusView where
  | notFound (task_id : String)
  | completeChunked (firstChunk : Option (List Char)) (total_chunks : Nat)
      (citation_groups : Nat)
  | completeSmall (content : List Char) (citation_groups : Nat)
  | failedView (error : Option String)
  | inProgress (status : TaskStatus) (started : Bool)
  | attrError
deriving DecidableEq

/-- Embeds `task_status` (server.py lines 679-820). -/
def task_status (queue : List (String × TaskState)) (task_id : String) :
    StatusView :=
  match findTask queue task_id with
  | none => .notFound task_id
  | some task =>
    if task.status = .complete then
      match task.result with
      | none => .attrError
      | some r =>
        if 1 < r.total_chunks then
          .completeChunked r.chunks[0]? r.total_chunks r.citations.length
        else
          .completeSmall r.content r.citations.length
    else if task.status = .failed then
      .failedView task.error
    else
      .inProgress task.status task.started_at.isSome

/-- One full job lifetime, composed exactly as the source sequences it:
`deep_research` creates and (on success) hands the record to the spawned
`poll_parallel_task`. Returns the record snapshots observable by other
coroutines and the sequence of writes to the record's `status` field. -/
def jobRun (clientConfigured : Bool) (query : String)
    (arg envDefault : Option String) (task_id : String)
    (createdAt startedAt : Nat) (createRun : Except String String)
    (work : Except String WorkerData) : List TaskState × List TaskStatus :=
  let out := deep_research clientConfigured query arg envDefault task_id
    createdAt createRun
  match out.taskRecord, out.workerSpawned with
  | some t, true =>
    let w := poll_parallel_task t startedAt work
    (out.snapshots ++ w.snapshots, out.statusWrites ++ w.statusWrites)
  | _, _ => (out.snapshots, out.statusWrites)

/-- The contract of claim C3 for a record found in the registry: a
non-Complete job yields a NotReady error naming the current state; a
Complete job yields OutOfRange exactly when the 1-indexed chunk number is
outside `1..total_chunks`, and otherwise the text of the requested chunk
together with its position metadata. -/
def fetchContract (queue : List (String × TaskState)) (task_id : String)
    (task : TaskState) (k : Int) : Prop :=
  (task.status ≠ .complete →
    get_research_chunk queue task_id k = .notReady task_id task.status) ∧
  (∀ r, task.status = .complete → task.result = some r →
    ((k < 1 ∨ (r.total_chunks : Int) < k) →
      get_research_chunk queue task_id k = .outOfRange k r.total_chunks) ∧
    (1 ≤ k → k ≤ (r.total_chunks : Int) → r.total_chunks = r.chunks.length →
      ∃ c, r.chunks[(k - 1).toNat]? = some c ∧
        get_research_chunk queue task_id k = .chunkText c k r.total_chunks))

/-- C3: FetchChunk contract — for every job id present in the registry,
`get_research_chunk` (server.py lines 623-676) reports NotReady (naming
the current state) whenever the job is not Complete; when Complete it
reports OutOfRange exactly when the chunk number is outside
`1..total_chunks`, and otherwise returns the 1-indexed requested chunk's
text with its position metadata (the well-formedness hypothesis
`total_chunks = len(chunks)` holds for every record the server itself
completes, see C10). -/
theorem c3_fetch_chunk_contract (queue : List (String × TaskState))
    (task_id : String) (task : TaskState) (k : Int)
    (hfind : findTask queue task_id = some task) :
    fetchContract queue task_id task k := by
  constructor
  · intro hne
    simp only [get_research_chunk, hfind]
    rw [if_pos hne]
  · intro r hcomp hres
    constructor
    · intro hout
      simp only [get_research_chunk, hfind, hres]
      rw [if_neg (by simp [hcomp]), if_pos hout]
    · intro h1 h2 hwf
      have hidx : (k - 1).toNat < r.chunks.length := by omega
      have hsome := List.getElem?_eq_getElem hidx
      refine ⟨_, hsome, ?_⟩
      simp only [get_research_chunk, hfind, hres]
      rw [if_neg (by simp [hcomp]), if_neg (by omega), hsome]

/-- Witness record for C3: a Complete job with three chunks. -/
def wfTask3 : TaskState :=
  { task_id := "t3", query := "q3", processor := "pro",
    status := .complete,
    result := some
      { content := ['a', 'b', 'c'],
        chunks := [['a'], ['b'], ['c']],
        total_chunks := 3,
        estimated_tokens := 0,
        citations := [],
        processor := "pro",
        run_id := some "r3" },
    error := none, created_at := 0, started_at := some 0,
    run_id := some "r3" }

/-- Witness for C3 at a concrete Complete three-chunk job and chunk
number 2. -/
theorem c3_fetch_chunk_contract_witness :
    findTask [(("t3" : String), wfTask3)] ("t3") = some wfTask3 ∧
    fetchContract [(("t3" : String), wfTask3)] ("t3") wfTask3 2 := by
  have h : findTask [(("t3" : String), wfTask3)] ("t3") = some wfTask3 := by
    simp [findTask]
  exact ⟨h, c3_fetch_chunk_contract [(("t3" : String), wfTask3)] ("t3") wfTask3 2 h⟩

/-- C4: the source of `deep_research` (server.py lines 487-620) builds an
approval message (lines 570-577) but never invokes any approval
collaborator before the remote run-creation call — the NOTE at lines
579-581 leaves approval unimplemented — and consequently no execution
marks a job Cancelled or writes the Cancelled state: on every input,
`approvalRequested` is false, the created record (when any) is never in
state Cancelled, and Cancelled is never written. The claim's required
behaviour (synchronous approval before run creation; decline gives
Cancelled with no worker) therefore does not hold of the code, although
the tool's own description (server.py line 128) says approval is
required. -/
theorem c4_approval_never_requested (clientConfigured : Bool) (query : String)
    (arg envDefault : Option String) (task_id : String) (createdAt : Nat)
    (createRun : Except String String) :
    (deep_research clientConfigured query arg envDefault task_id createdAt
      createRun).approvalRequested = false ∧
    (deep_research clientConfigured query arg envDefault task_id createdAt
      createRun).taskRecord.map TaskState.status ≠ some .cancelled ∧
    TaskStatus.cancelled ∉ (deep_research clientConfigured query arg envDefault
      task_id createdAt createRun).statusWrites := by
  cases clientConfigured <;> cases createRun <;>
    simp [deep_research]

/-- C5 counterexample input: with the `DEFAULT_PROCESSOR` environment
variable set to the valid tier `"ultra"` and the processor argument
absent, the created job's tier is `"ultra"`, not the claimed `"pro"`. -/
theorem c5_counterexample :
    (deep_research true ("query") none (some ("ultra")) ("t1") 0
      (Except.ok ("r1"))).taskRecord.map TaskState.processor = some ("ultra") ∧
    ("ultra" : String) ≠ ("pro") := by
  constructor
  · rfl
  · decide

/-- The amended conclusion of claim C5 for a Submit whose tier argument
is absent or invalid and whose remote run-creation succeeds: the job is
created in state Approved with tier `resolveProcessor envDefault arg`,
the response is a normal submission (not an error); a present-but-invalid
argument always resolves to `"pro"`, and an absent argument resolves to
`"pro"` whenever the `DEFAULT_PROCESSOR` environment variable is unset. -/
def tierDefaultPost (query : String) (arg envDefault : Option String)
    (task_id rid : String) (createdAt : Nat) : Prop :=
  (∃ t, (deep_research true query arg envDefault task_id createdAt
      (Except.ok rid)).taskRecord = some t ∧
    t.processor = resolveProcessor envDefault arg ∧ t.status = .approved) ∧
  (deep_research true query arg envDefault task_id createdAt
      (Except.ok rid)).response =
    .submitted task_id (resolveProcessor envDefault arg) ∧
  (∀ p, arg = some p → resolveProcessor envDefault arg = "pro") ∧
  (envDefault = none → resolveProcessor envDefault arg = "pro")

/-- C5 (amended): Tier default substitution — a Submit whose processor
argument is present but not in the fixed enumeration creates a job with
tier `"pro"` and returns a normal submission, not an error; an absent
argument is substituted by the validated `DEFAULT_PROCESSOR` environment
default (server.py lines 378-381, 503-504, 522-528), which equals `"pro"`
whenever that variable is unset. -/
theorem c5_tier_default (query : String) (arg envDefault : Option String)
    (task_id rid : String) (createdAt : Nat)
    (h : ∀ p, arg = some p → p ∉ valid_processors) :
    tierDefaultPost query arg envDefault task_id rid createdAt := by
  refine ⟨⟨_, rfl, rfl, rfl⟩, rfl, ?_, ?_⟩
  · intro p hp
    subst hp
    simp only [resolveProcessor, Option.getD_some]
    rw [validateProcessor, if_neg (h p rfl)]
  · intro he
    subst he
    cases arg with
    | none => decide
    | some p =>
      simp only [resolveProcessor, Option.getD_some]
      rw [validateProcessor, if_neg (h p rfl)]

/-- Witness for C5 at the tier argument bogus-tier with the environment
default unset. -/
theorem c5_tier_default_witness :
    (∀ p, (some ("bogus-tier") : Option String) = some p →
      p ∉ valid_processors) ∧
    tierDefaultPost ("q") (some ("bogus-tier")) none ("t1") ("r1") 0 := by
  have h : ∀ p, (some ("bogus-tier") : Option String) = some p →
      p ∉ valid_processors := by
    intro p hp
    injection hp with h2
    subst h2
    decide
  exact ⟨h, c5_tier_default ("q") (some ("bogus-tier")) none ("t1") ("r1") 0 h⟩

/-- C6: Remote submission failure — when the remote run-creation call of
`deep_research` raises (server.py lines 591, 611-620), the already-created
job record is left in state Failed with the error text preserved in its
`error` field, no Polling Worker is spawned, and the status writes are
exactly Pending then Failed. -/
theorem c6_submission_failure (query : String) (arg envDefault : Option String)
    (task_id : String) (createdAt : Nat) (e : String) :
    (deep_research true query arg envDefault task_id createdAt
      (Except.error e)).taskRecord =
      some { task_id := task_id, query := query,
             processor := resolveProcessor envDefault arg,
             status := .failed, result := none, error := some e,
             created_at := createdAt, started_at := none, run_id := none } ∧
    (deep_research true query arg envDefault task_id createdAt
      (Except.error e)).workerSpawned = false ∧
    (deep_research true query arg envDefault task_id createdAt
      (Except.error e)).statusWrites = [.pending, .failed] :=
  ⟨rfl, rfl, rfl⟩

/-- The conclusion of claim C7 for a job identifier: both read paths
report a not-found result as a normal value. -/
def unknownIdPost (queue : List (String × TaskState)) (task_id : String) : Prop :=
  task_status queue task_id = .notFound task_id ∧
  ∀ k : Int, get_research_chunk queue task_id k = .notFound task_id

/-- C7: Unknown id handling — for every identifier not present in the
registry, `task_status` (server.py lines 695-696) and
`get_research_chunk` (lines 641-642) both return a JobNotFound report as
a normal result, for every chunk number. -/
theorem c7_unknown_id (queue : List (String × TaskState)) (task_id : String)
    (h : findTask queue task_id = none) :
    unknownIdPost queue task_id := by
  constructor
  · simp only [task_status, h]
  · intro k
    simp only [get_research_chunk, h]

/-- Witness for C7 at the empty registry and the identifier
nonexistent-id. -/
theorem c7_unknown_id_witness :
    findTask [] ("nonexistent-id") = none ∧
    unknownIdPost [] ("nonexistent-id") :=
  ⟨rfl, c7_unknown_id [] ("nonexistent-id") rfl⟩

/-- C8: State monotonicity — for every job execution, the sequence of
states written to the record by `deep_research` and its
`poll_parallel_task` worker (server.py lines 232, 333, 349, 593, 617) is
a subsequence of Pending, Approved, Running, Complete, or of Pending,
Approved, Running, Failed, or of Pending, Cancelled; in particular no
write ever moves the state backward. -/
theorem c8_state_monotonic (clientConfigured : Bool) (query : String)
    (arg envDefault : Option String) (task_id : String)
    (createdAt startedAt : Nat) (createRun : Except String String)
    (work : Except String WorkerData) :
    List.Sublist (jobRun clientConfigured query arg envDefault task_id
        createdAt startedAt createRun work).2
      [.pending, .approved, .running, .complete] ∨
    List.Sublist (jobRun clientConfigured query arg envDefault task_id
        createdAt startedAt createRun work).2
      [.pending, .approved, .running, .failed] ∨
    List.Sublist (jobRun clientConfigured query arg envDefault task_id
        createdAt startedAt createRun work).2
      [.pending, .cancelled] := by
  cases clientConfigured with
  | false =>
    left
    show List.Sublist ([] : List TaskStatus) _
    exact List.nil_sublist _
  | true =>
    cases createRun with
    | error e =>
      right
      left
      show List.Sublist [TaskStatus.pending, TaskStatus.failed] _
      decide
    | ok rid =>
      cases work with
      | ok d =>
        left
        show List.Sublist [TaskStatus.pending, TaskStatus.approved,
          TaskStatus.running, TaskStatus.complete] _
        decide
      | error e =>
        right
        left
        show List.Sublist [TaskStatus.pending, TaskStatus.approved,
          TaskStatus.running, TaskStatus.failed] _
        decide

/-- Whether a status is terminal (Complete, Failed or Cancelled). -/
def isTerminal : TaskStatus → Bool
  | .complete => true
  | .failed => true
  | .cancelled => true
  | _ => false

/-- The invariant of claim C9 on a single record snapshot: before a
terminal state neither `result` nor `error` is set; in state Complete the
result is set and the error unset; in state Failed the error is set and
the result unset; in any terminal state exactly one of the two is set. -/
def terminalExclusive (t : TaskState) : Prop :=
  (isTerminal t.status = false → t.result = none ∧ t.error = none) ∧
  (t.status = .complete → t.result.isSome = true ∧ t.error = none) ∧
  (t.status = .failed → t.error.isSome = true ∧ t.result = none) ∧
  (isTerminal t.status = true →
    (t.result.isSome = true ∧ t.error = none) ∨
    (t.error.isSome = true ∧ t.result = none))

/-- C9: Terminal exclusivity — every record snapshot observable during a
job execution (as produced by `deep_research` and `poll_parallel_task`,
server.py lines 323-350, 592-618) satisfies: neither `result` nor `error`
is set before a terminal state, the result alone is set in Complete, the
error alone is set in Failed, and exactly one of the two is set in every
reachable terminal state. -/
theorem c9_terminal_exclusivity (clientConfigured : Bool) (query : String)
    (arg envDefault : Option String) (task_id : String)
    (createdAt startedAt : Nat) (createRun : Except String String)
    (work : Except String WorkerData) :
    List.Forall terminalExclusive (jobRun clientConfigured query arg envDefault
      task_id createdAt startedAt createRun work).1 := by
  cases clientConfigured <;> cases createRun <;> cases work <;>
    simp [jobRun, deep_research, poll_parallel_task, List.Forall,
      terminalExclusive, isTerminal, mkResult]

/-- The first chunk of the chunking algorithm always exists. -/
theorem chunkContent_head_isSome (l : List Char) :
    (chunkContent l)[0]?.isSome = true := by
  rw [List.getElem?_eq_getElem (chunkContent_length_pos l)]
  rfl

/-- The result dictionary installed by the worker is well formed:
`total_chunks` counts the chunks, there is at least one chunk, the chunks
concatenate to the content, the first chunk exists, and every 1-indexed
chunk number within `1..total_chunks` translates to an in-bounds list
index. -/
theorem mkResult_wf (d : WorkerData) (proc : String) (rid : Option String) :
    (mkResult d proc rid).total_chunks = (mkResult d proc rid).chunks.length ∧
    1 ≤ (mkResult d proc rid).chunks.length ∧
    (mkResult d proc rid).chunks.flatten = (mkResult d proc rid).content ∧
    (mkResult d proc rid).chunks[0]?.isSome = true ∧
    ∀ k : Int, 1 ≤ k → k ≤ ((mkResult d proc rid).total_chunks : Int) →
      (k - 1).toNat < (mkResult d proc rid).chunks.length := by
  refine ⟨rfl, chunkContent_length_pos d.content,
    chunkContent_flatten d.content, chunkContent_head_isSome d.content, ?_⟩
  intro k h1 h2
  simp only [mkResult] at h2 ⊢
  omega

/-- The implicit well-formedness of claim C10 on a record snapshot: a
Complete record carries a result whose `total_chunks` equals the chunk
count, with at least one chunk, whose chunks concatenate to the content,
whose first chunk (displayed inline by `task_status`) exists, and for
which every chunk number accepted by the range check of
`get_research_chunk` indexes within bounds. -/
def completeResultWF (t : TaskState) : Prop :=
  t.status = .complete →
    ∃ r, t.result = some r ∧
      r.total_chunks = r.chunks.length ∧
      1 ≤ r.chunks.length ∧
      r.chunks.flatten = r.content ∧
      r.chunks[0]?.isSome = true ∧
      ∀ k : Int, 1 ≤ k → k ≤ (r.total_chunks : Int) →
        (k - 1).toNat < r.chunks.length

/-- C10: for every record snapshot of a job execution that is in state
Complete, the installed result satisfies `total_chunks = len(chunks) >= 1`
and `content` is the concatenation of the chunks — so the first-chunk
display of `task_status` (server.py line 747) and the
`chunks[chunk - 1]` access of `get_research_chunk` (line 671, after its
range check) are always in bounds; and empty content yields exactly one
empty chunk. -/
theorem c10_result_wellformed (clientConfigured : Bool) (query : String)
    (arg envDefault : Option String) (task_id : String)
    (createdAt startedAt : Nat) (createRun : Except String String)
    (work : Except String WorkerData) :
    List.Forall completeResultWF (jobRun clientConfigured query arg envDefault
      task_id createdAt startedAt createRun work).1 ∧
    chunkContent [] = [[]] := by
  refine ⟨?_, rfl⟩
  cases clientConfigured with
  | false =>
    simp [jobRun, deep_research, List.Forall]
  | true =>
    cases createRun with
    | error e =>
      simp [jobRun, deep_research, List.Forall, completeResultWF]
    | ok rid =>
      cases work with
      | error e =>
        simp [jobRun, deep_research, poll_parallel_task, List.Forall,
          completeResultWF]
      | ok d =>
        simp only [jobRun, deep_research, poll_parallel_task, List.Forall]
        refine ⟨?_, ?_, ?_, ?_⟩
        · intro habs
          exact absurd habs (by simp)
        · intro habs
          exact absurd habs (by simp)
        · intro habs
          exact absurd habs (by simp)
        · intro _
          exact ⟨_, rfl, mkResult_wf d (resolveProcessor envDefault arg) (some rid)⟩
